import Mathlib

/-!
Verification development for the remus redis messaging bus client
(lib/remus.js). The JavaScript source is shallowly embedded: JS string
primitives (`split`, first-occurrence `replace`, `startsWith`) are modelled
over `List Char`, the client instance is a `ClientState` record, and each
method of `Remus.prototype` becomes a pure function from a state to a new
state plus a list of observable `Action`s (publishes, timer operations,
event emissions, callback invocations). JS runtime errors (TypeError on
property access of `undefined`) are modelled with `Except`.
-/

deriving instance DecidableEq for Except

namespace Remus

/-! ## JavaScript string primitives -/

/-- JS `String.prototype.split(":")` on the character list: split at every
occurrence of the single character `':'`, accumulating the current field in
`acc` (in reverse). Mirrors the greedy left-to-right semantics of JS
`split` with a one-character separator. -/
def splitSC : List Char → List Char → List (List Char)
  | [], acc => [acc.reverse]
  | c :: rest, acc =>
    if c = ':' then acc.reverse :: splitSC rest []
    else splitSC rest (c :: acc)

/-- JS `String.prototype.split("::")` on the character list: split at every
non-overlapping occurrence of `"::"` scanning left to right. -/
def splitDC : List Char → List Char → List (List Char)
  | [], acc => [acc.reverse]
  | [c], acc => [(c :: acc).reverse]
  | c1 :: c2 :: rest, acc =>
    if c1 = ':' ∧ c2 = ':' then acc.reverse :: splitDC rest []
    else splitDC (c2 :: rest) (c1 :: acc)

/-- JS `String.prototype.replace(pat, rep)` with a string pattern replaces
only the FIRST occurrence of `pat` (this first-occurrence-only behaviour is
load-bearing for the escaping bugs below). -/
def replFirst (pat rep : List Char) : List Char → List Char
  | [] => []
  | c :: rest =>
    if pat.isPrefixOf (c :: rest) then rep ++ (c :: rest).drop pat.length
    else c :: replFirst pat rep rest

/-- Whether `pat` occurs as a contiguous substring of the list. -/
def containsSub (pat : List Char) : List Char → Bool
  | [] => pat.isEmpty
  | c :: rest => pat.isPrefixOf (c :: rest) || containsSub pat rest

/-- JS `channel.split(':')` lifted to `String`. -/
def jsSplitColon (s : String) : List String :=
  (splitSC s.data []).map String.mk

/-- JS `channel.split('::')` lifted to `String`. -/
def jsSplitDColon (s : String) : List String :=
  (splitDC s.data []).map String.mk

/-- JS `s.replace(pat, rep)` (first occurrence only) lifted to `String`. -/
def jsReplaceFirst (s pat rep : String) : String :=
  String.mk (replFirst pat.data rep.data s.data)

/-- JS `s.startsWith(p)`. -/
def jsStartsWith (s p : String) : Bool :=
  p.data.isPrefixOf s.data

/-! ## Data model

A correlation entry of `this._messagesWaiting`: the stored callback and the
`setTimeout` handle, both abstracted to identifiers. -/

structure Entry where
  callback : Nat
  timeout : Nat
  deriving DecidableEq

/-- The per-instance state of a `Remus` client: the escaped namespace and
client id computed by the constructor (`opts.namespace.replace(':', '-')`
and `opts.clientId.replace(':', '-')` — note: first occurrence only), the
message-id counter, the pending-response table `_messagesWaiting` (a JS
object keyed by the string form of the message id), and the EventEmitter
listener registry (event name, handler id), in registration order. -/
structure ClientState where
  _namespace : String
  _clientId : String
  _messageId : Nat
  _messagesWaiting : List (String × Entry)
  listeners : List (String × Nat)
  deriving DecidableEq

/-- A JS runtime exception escaping the modelled code. -/
inductive RemusErr where
  | typeError (msg : String)
  deriving DecidableEq

/-- Observable side effects of the modelled methods. -/
inductive Action where
  | publish (channel msg : String)
  | psubscribe (pat : String)
  | punsubscribe (pat : String)
  | quitOutgoing
  | startTimer (t : Nat)
  | clearTimer (t : Nat)
  | invoke (cb : Nat) (err : Option String) (sender : Option String) (msg : Option String)
  | emitBroadcast (btype : String) (sender : Option String) (msg : String)
  | emitRoom (room : String) (sender : Option String) (msg : String)
  | emitMessage (sender msg msgId : String)
  deriving DecidableEq

/-- The constructor's escaping of the namespace:
`this._namespace = this.namespace.replace(':', '-')` (first `':'` only, and
`'-'` is not a reversible placeholder). Same scheme for `_clientId`. -/
def escapeIdent (s : String) : String :=
  jsReplaceFirst s ":" "-"

/-- `this._messagePattern = this._namespace + ':' + this._clientId + ':*'` -/
def messagePattern (st : ClientState) : String :=
  st._namespace ++ ":" ++ st._clientId ++ ":*"

/-- `this._broadcastPattern = this._namespace + '::*'` -/
def broadcastPattern (st : ClientState) : String :=
  st._namespace ++ "::*"

/-- `this.listeners(ev)` of the EventEmitter: handlers registered for the
exact event name, in order. -/
def listenersFor (st : ClientState) (ev : String) : List Nat :=
  (st.listeners.filter (fun l => l.1 = ev)).map (fun l => l.2)

/-- Handlers an emitted event is delivered to, given the registry at
emission time. -/
def deliveredHandlers (st : ClientState) (a : Action) : List Nat :=
  match a with
  | .emitBroadcast _ _ _ => listenersFor st "broadcast"
  | .emitRoom room _ _ => listenersFor st ("room:" ++ room)
  | .emitMessage _ _ _ => listenersFor st "message"
  | _ => []

/-! ## Constructor option handling -/

/-- JS truthiness of an optional boolean option value (`undefined` is
falsy). -/
def jsTruthy : Option Bool → Bool
  | some b => b
  | none => false

/-- JS `a || b` on an optional boolean `a` and boolean `b`: the value of
`a` when truthy, otherwise `b`. -/
def jsOrBool (a : Option Bool) (b : Bool) : Bool :=
  if jsTruthy a then true else b

/-- `var supressRedisError = opts.suppressRedisError || true;` from the
constructor: the computed suppression flag as a function of the option the
caller passed (`none` = option absent). -/
def supressRedisError (optVal : Option Bool) : Bool :=
  jsOrBool optVal true

/-- `if(supressRedisError) { install on-error handlers that only log }`:
whether redis connection errors are swallowed by the constructor-installed
handlers instead of propagating. -/
def redisErrorsSwallowed (optVal : Option Bool) : Bool :=
  if supressRedisError optVal then true else false

/-! ## Outgoing methods -/

/-- Channel built by `broadcastMessage`:
`type.replace('::', '??DC??')` then
`this._namespace + "::" + type + "::" + this._clientId`. -/
def broadcastChannel (st : ClientState) (btype : String) : String :=
  st._namespace ++ "::" ++ jsReplaceFirst btype "::" "??DC??" ++ "::" ++ st._clientId

/-- `Remus.prototype.broadcastMessage(type, msg)`. -/
def broadcastMessage (st : ClientState) (btype msg : String) : ClientState × List Action :=
  (st, [Action.publish (broadcastChannel st btype) msg])

/-- Channel built by `sendMessage`:
`this._namespace + ":" + recepientId + ":" + this._clientId + ":" + msgId`
with `msgId = ++this._messageId`. -/
def sendChannel (st : ClientState) (recepientId : String) : String :=
  st._namespace ++ ":" ++ recepientId ++ ":" ++ st._clientId ++ ":" ++ toString (st._messageId + 1)

/-- `Remus.prototype.sendMessage(recepientId, msg, callback)`. When a
callback is supplied a timeout timer is started and an entry is stored in
`this._messagesWaiting[msgId]`; the message is then published. `timerId`
is the fresh handle returned by `setTimeout`. -/
def sendMessage (st : ClientState) (recepientId msg : String) (callback : Option Nat)
    (timerId : Nat) : ClientState × List Action :=
  let msgId := st._messageId + 1
  let st1 : ClientState := { st with _messageId := msgId }
  let channel := sendChannel st recepientId
  match callback with
  | some cb =>
    ({ st1 with _messagesWaiting := (toString msgId, ⟨cb, timerId⟩) :: st1._messagesWaiting },
     [Action.startTimer timerId, Action.publish channel msg])
  | none => (st1, [Action.publish channel msg])

/-- The closure passed to `setTimeout` inside `sendMessage`. In the source
it runs with `this` bound to the Timeout object (not the Remus instance),
so `this._messagesWaiting` evaluates to `undefined` and
`delete this._messagesWaiting[msgId]` throws a TypeError before
`callback(new Error('Message response timed out. ...'), null)` is ever
reached; the client's `_messagesWaiting` is left untouched. -/
def messageTimeoutFire (st : ClientState) (callback : Nat) (msgId : Nat) :
    Except RemusErr (ClientState × List Action) :=
  .error (.typeError "Cannot convert undefined or null to object")

/-- Channel built by `sendRoomMessage`:
`room.replace(':', '??SC??')` then
`this._namespace + ":room:" + room + ":" + this._clientId + ":" + msgId`
with `msgId = ++this._messageId`. -/
def sendRoomChannel (st : ClientState) (room : String) : String :=
  st._namespace ++ ":room:" ++ jsReplaceFirst room ":" "??SC??" ++ ":" ++
    st._clientId ++ ":" ++ toString (st._messageId + 1)

/-- `Remus.prototype.sendRoomMessage(room, msg)`. -/
def sendRoomMessage (st : ClientState) (room msg : String) : ClientState × List Action :=
  ({ st with _messageId := st._messageId + 1 },
   [Action.publish (sendRoomChannel st room) msg])

/-- Pattern subscribed by `listenToRoom`:
`this._namespace + ":room:" + room.replace(':', '??SC??') + ":*"`. -/
def listenRoomPattern (st : ClientState) (room : String) : String :=
  st._namespace ++ ":room:" ++ jsReplaceFirst room ":" "??SC??" ++ ":*"

/-- `Remus.prototype.listenToRoom(room, callback)`: psubscribes to the room
channel pattern and registers `callback` on the event `'room:' + room`. -/
def listenToRoom (st : ClientState) (room : String) (callback : Nat) :
    ClientState × List Action :=
  ({ st with listeners := st.listeners ++ [("room:" ++ room, callback)] },
   [Action.psubscribe (listenRoomPattern st room)])

/-- JS `typeof` of the optional callback argument of `ignoreRoom`:
`"function"` for a function value, `"undefined"` when absent. -/
def jsTypeof : Option Nat → String
  | some _ => "function"
  | none => "undefined"

/-- `Remus.prototype.ignoreRoom(room, callback)`. The source compares
`typeof callback === 'Function'` (capital F — never equal to the lowercase
`typeof` result), so it always falls through to
`this.removeAllListeners(room)`, which removes listeners registered under
the event name `room` itself, not under `'room:' + room`. -/
def ignoreRoom (st : ClientState) (room : String) (callback : Option Nat) :
    ClientState × List Action :=
  if jsTypeof callback = "Function" then
    ({ st with listeners := st.listeners.eraseP (fun l => l.1 == room && l.2 == callback.getD 0) }, [])
  else
    ({ st with listeners := st.listeners.filter (fun l => l.1 ≠ room) }, [])

/-- Channel built by `sendResponse`:
`this._namespace + ":" + recepientId + ":" + this._clientId + ":" + msgId + ':r'`. -/
def sendResponseChannel (st : ClientState) (recepientId msgId : String) : String :=
  st._namespace ++ ":" ++ recepientId ++ ":" ++ st._clientId ++ ":" ++ msgId ++ ":r"

/-- `Remus.prototype.sendResponse(recepientId, msgId, msg)`. -/
def sendResponse (st : ClientState) (recepientId msgId msg : String) : List Action :=
  [Action.publish (sendResponseChannel st recepientId msgId) msg]

/-- The reply closure handed to `message` listeners: an empty or missing
response publishes nothing, otherwise `sendResponse` is invoked with the
captured sender and message id. -/
def replyClosure (st : ClientState) (sender msgId : String) (response : Option String) :
    List Action :=
  match response with
  | none => []
  | some r => if r = "" then [] else sendResponse st sender msgId r

/-! ## The dispatcher -/

/-- `Remus.prototype.handlePMessage(pattern, channel, msg)`, the dispatcher
for incoming pmessage notifications, translated branch by branch:

* broadcast branch (pattern equals `_broadcastPattern`): drop when no
  `broadcast` listener, split on `"::"`, drop when fewer than 3 parts or on
  namespace mismatch; the source then emits
  `this.emit('broadcast', btype, sender, msg)` where `sender` is the
  var-hoisted variable assigned only later in the direct branch, hence
  still `undefined` — modelled as `none` (the decoded `bsender` is computed
  but unused, exactly as in the source);
* room branch (pattern starts with `_namespace + ":room:"`): split on
  `':'`; `rparts[2]` is accessed unguarded, so fewer than 3 parts makes
  `rparts[2].replace(...)` a TypeError; otherwise emit
  `'room:' + room` with `rparts[3]` (which is `undefined` when absent);
* direct branch (pattern equals `_messagePattern`): drop when no `message`
  listener (note: this guard also swallows responses), drop on fewer than
  4 parts, namespace mismatch, or foreign recipient; for a response
  (`cparts[4] === 'r'`) the entry `this._messagesWaiting[msgId]` is
  accessed unguarded — a TypeError when absent — else the timer is
  cleared, the entry deleted and the callback invoked with
  `(null, sender, msg)`; a fresh message emits `message`. -/
def handlePMessage (st : ClientState) (pat channel msg : String) :
    Except RemusErr (ClientState × List Action) :=
  if pat = broadcastPattern st then
    if (listenersFor st "broadcast").length = 0 then .ok (st, [])
    else
      let bcparts := jsSplitDColon channel
      if bcparts.length < 3 then .ok (st, [])
      else if bcparts.get? 0 ≠ some st._namespace then .ok (st, [])
      else
        match bcparts.get? 1 with
        | none => .error (.typeError "Cannot read property of undefined")
        | some p1 =>
          let btype := jsReplaceFirst p1 "??DC??" "::"
          .ok (st, [Action.emitBroadcast btype none msg])
  else if jsStartsWith pat (st._namespace ++ ":room:") then
    let rparts := jsSplitColon channel
    match rparts.get? 2 with
    | none => .error (.typeError "Cannot read property of undefined")
    | some r2 =>
      let room := jsReplaceFirst r2 "??SC??" ":"
      .ok (st, [Action.emitRoom room (rparts.get? 3) msg])
  else if pat ≠ messagePattern st then .ok (st, [])
  else if (listenersFor st "message").length = 0 then .ok (st, [])
  else
    let cparts := jsSplitColon channel
    if cparts.length < 4 then .ok (st, [])
    else if cparts.get? 0 ≠ some st._namespace then .ok (st, [])
    else
      let recepient := (cparts.get? 1).getD ""
      let sender := (cparts.get? 2).getD ""
      let msgId := (cparts.get? 3).getD ""
      let msgType := if cparts.length > 4 then (cparts.get? 4).getD "" else "m"
      if recepient ≠ st._clientId then .ok (st, [])
      else if msgType = "r" then
        match List.lookup msgId st._messagesWaiting with
        | none => .error (.typeError "Cannot read property timeout of undefined")
        | some e =>
          .ok ({ st with _messagesWaiting := st._messagesWaiting.eraseP (fun p => p.1 == msgId) },
               [Action.clearTimer e.timeout, Action.invoke e.callback none (some sender) (some msg)])
      else
        .ok (st, [Action.emitMessage sender msg msgId])

/-! ## close -/

/-- Error message of the closed-before-reply error. -/
def closedErrMsg : String := "Client closed before message response received."

/-- The `for(var msgId in this._messagesWaiting)` loop of `close`: for each
pending entry, clear its timer, delete it and invoke its callback with the
closed error and `null` payload. -/
def closeActions : List (String × Entry) → List Action
  | [] => []
  | (_, e) :: rest =>
    Action.clearTimer e.timeout ::
      Action.invoke e.callback (some closedErrMsg) none none :: closeActions rest

/-- `Remus.prototype.close()`: punsubscribes the message pattern, quits the
outgoing client, then drains `_messagesWaiting` via the loop above. The
body is a total function of the state — the synchronous call itself cannot
raise. -/
def close (st : ClientState) : ClientState × List Action :=
  ({ st with _messagesWaiting := [] },
   Action.punsubscribe (messagePattern st) :: Action.quitOutgoing ::
     closeActions st._messagesWaiting)

/-- The callback invocations contained in the result of a dispatch (empty
when the dispatch raised). -/
def isInvoke : Action → Bool
  | .invoke _ _ _ _ => true
  | _ => false

/-- Callback invocations produced by a dispatch result. -/
def invokeActions : Except RemusErr (ClientState × List Action) → List Action
  | .error _ => []
  | .ok (_, as) => as.filter isInvoke

/-! ## Concrete clients used to evaluate the code on specific inputs -/

/-- Client `me` in namespace `n`, listening to the room named `a:b:c`
(a room name containing the channel delimiter twice). -/
def stC1 : ClientState :=
  { _namespace := "n", _clientId := "me", _messageId := 0,
    _messagesWaiting := [], listeners := [("room:a:b:c", 4)] }

/-- Client `a` with one pending send (id `1`, callback `9`, timer `100`)
and a `broadcast` listener but no `message` listener. -/
def stC2 : ClientState :=
  { _namespace := "n", _clientId := "a", _messageId := 1,
    _messagesWaiting := [("1", ⟨9, 100⟩)], listeners := [("broadcast", 3)] }

/-- Client `a` with a `message` listener, before sending. -/
def stC3 : ClientState :=
  { _namespace := "n", _clientId := "a", _messageId := 0,
    _messagesWaiting := [], listeners := [("message", 5)] }

/-- `stC3` after `sendMessage('b', 'hi', cb)` with callback `9`, timer `100`. -/
def stC3' : ClientState :=
  { _namespace := "n", _clientId := "a", _messageId := 1,
    _messagesWaiting := [("1", ⟨9, 100⟩)], listeners := [("message", 5)] }

/-- Client `a` with a `message` listener and no pending sends. -/
def stC4 : ClientState :=
  { _namespace := "n", _clientId := "a", _messageId := 0,
    _messagesWaiting := [], listeners := [("message", 5)] }

/-- Client `a` with one `broadcast` listener. -/
def stC6 : ClientState :=
  { _namespace := "n", _clientId := "a", _messageId := 0,
    _messagesWaiting := [], listeners := [("broadcast", 3)] }

/-- Client `a` listening to room `lobby`. -/
def stC7 : ClientState :=
  { _namespace := "n", _clientId := "a", _messageId := 0,
    _messagesWaiting := [], listeners := [("room:lobby", 7)] }

/-- Client `c` with an empty listener registry. -/
def stC8 : ClientState :=
  { _namespace := "n", _clientId := "c", _messageId := 0,
    _messagesWaiting := [], listeners := [] }

/-- `stC8` after `listenToRoom('lobby', h)` with handler `7`. -/
def stC8a : ClientState := (listenToRoom stC8 "lobby" 7).1

/-- `stC8a` after `ignoreRoom('lobby')` (no callback argument). -/
def stC8b : ClientState := (ignoreRoom stC8a "lobby" none).1

/-- Client `c` in namespace `n` listening to room `lobby` with handler `7`,
used to instantiate the room self-delivery theorem. -/
def st10w : ClientState :=
  { _namespace := "n", _clientId := "c", _messageId := 0,
    _messagesWaiting := [], listeners := [("room:lobby", 7)] }

end Remus


namespace Remus

/-! ## Supporting lemmas -/

theorem mk_data (s : String) : String.mk s.data = s := by cases s; rfl

theorem data_append (s t : String) : (s ++ t).data = s.data ++ t.data := by
  cases s; cases t; rfl

theorem isPrefixOf_append_self (a b : List Char) : a.isPrefixOf (a ++ b) = true := by
  induction a with
  | nil => simp [List.isPrefixOf]
  | cons c cs ih => simp [List.isPrefixOf, ih]

theorem replFirst_single_id {p : Char} {s : List Char} (rep : List Char)
    (h : ∀ c ∈ s, c ≠ p) : replFirst [p] rep s = s := by
  induction s with
  | nil => rfl
  | cons c rest ih =>
    have hc : (p == c) = false := by
      simp only [beq_eq_false_iff_ne]
      exact fun he => (h c (List.mem_cons_self c rest)) he.symm
    simp [replFirst, List.isPrefixOf, hc]
    exact ih (fun x hx => h x (List.mem_cons_of_mem c hx))

theorem replFirst_id {pat s : List Char} (rep : List Char)
    (h : containsSub pat s = false) : replFirst pat rep s = s := by
  induction s with
  | nil => rfl
  | cons c rest ih =>
    simp only [containsSub, Bool.or_eq_false_iff] at h
    simp [replFirst, h.1]
    exact ih h.2

theorem splitSC_cons_colon (s acc : List Char) :
    splitSC (':' :: s) acc = acc.reverse :: splitSC s [] := by
  simp [splitSC]

theorem splitSC_cons_ne {c : Char} (hc : ¬ (c = ':')) (s acc : List Char) :
    splitSC (c :: s) acc = splitSC s (c :: acc) := by
  simp [splitSC, hc]

theorem splitSC_append_free {a : List Char} (h : ∀ c ∈ a, c ≠ ':') (s acc : List Char) :
    splitSC (a ++ s) acc = splitSC s (a.reverse ++ acc) := by
  induction a generalizing acc with
  | nil => simp
  | cons c cs ih =>
    have hc : ¬ (c = ':') := h c (List.mem_cons_self c cs)
    rw [List.cons_append, splitSC_cons_ne hc, ih (fun x hx => h x (List.mem_cons_of_mem c hx))]
    simp

theorem splitSC_field {a : List Char} (h : ∀ c ∈ a, c ≠ ':') (s : List Char) :
    splitSC (a ++ ':' :: s) [] = a :: splitSC s [] := by
  rw [splitSC_append_free h, splitSC_cons_colon]
  simp

theorem splitSC_free {a : List Char} (h : ∀ c ∈ a, c ≠ ':') :
    splitSC a [] = [a] := by
  have := splitSC_append_free h [] []
  simpa [splitSC] using this

theorem splitSC_concat5 (a b c d e : List Char)
    (ha : ∀ x ∈ a, x ≠ ':') (hb : ∀ x ∈ b, x ≠ ':') (hc : ∀ x ∈ c, x ≠ ':')
    (hd : ∀ x ∈ d, x ≠ ':') (he : ∀ x ∈ e, x ≠ ':') :
    splitSC (a ++ ':' :: (b ++ ':' :: (c ++ ':' :: (d ++ ':' :: e)))) [] = [a, b, c, d, e] := by
  rw [splitSC_field ha, splitSC_field hb, splitSC_field hc, splitSC_field hd, splitSC_free he]

theorem closeActions_eq_flatten (l : List (String × Entry)) :
    closeActions l = (l.map (fun p =>
      [Action.clearTimer p.2.timeout,
       Action.invoke p.2.callback (some closedErrMsg) none none])).flatten := by
  induction l with
  | nil => rfl
  | cons p rest ih => simp [closeActions, ih]

theorem closeActions_countP_invoke (l : List (String × Entry)) (c : Nat) :
    (closeActions l).countP (fun a => a == Action.invoke c (some closedErrMsg) none none) =
      l.countP (fun p => p.2.callback == c) := by
  induction l with
  | nil => rfl
  | cons p rest ih =>
    by_cases hc : p.2.callback = c
    · simp [closeActions, List.countP_cons, ih, hc]
    · simp [closeActions, List.countP_cons, ih, hc]

theorem closeActions_countP_clear (l : List (String × Entry)) (t : Nat) :
    (closeActions l).countP (fun a => a == Action.clearTimer t) =
      l.countP (fun p => p.2.timeout == t) := by
  induction l with
  | nil => rfl
  | cons p rest ih =>
    by_cases ht : p.2.timeout = t
    · simp [closeActions, List.countP_cons, ih, ht]
    · simp [closeActions, List.countP_cons, ih, ht]

theorem invokeActions_of_no_waiting (st : ClientState) (h : st._messagesWaiting = [])
    (p c m : String) : invokeActions (handlePMessage st p c m) = [] := by
  obtain ⟨ns, cid, mid, w, ls⟩ := st
  simp only at h
  subst h
  unfold handlePMessage
  repeat' split <;> try rfl
  all_goals simp_all
  all_goals repeat' split <;> try rfl

end Remus

namespace Remus

/-! ## Claim theorems -/

/-- Claim C1. The claim states that decoding an encoded channel recovers the
original dynamic fields for all strings, including those containing the
`':'` delimiter more than once. The code refutes it: `sendRoomMessage`
escapes only the FIRST `':'` of the room name (JS `replace` with a string
pattern), so the room `a:b:c` is published on channel
`n:room:a??SC??b:c:me:1`, and the dispatcher decodes the room as `a:b` and
the sender as `c` (a fragment of the room name) instead of `a:b:c` and
`me`: the round trip is lossy. -/
theorem c1_room_roundtrip_not_lossless :
    sendRoomChannel stC1 "a:b:c" = "n:room:a??SC??b:c:me:1" ∧
    handlePMessage stC1 (listenRoomPattern stC1 "a:b:c") (sendRoomChannel stC1 "a:b:c") "m" =
      .ok (stC1, [Action.emitRoom "a:b" (some "c") "m"]) ∧
    Action.emitRoom "a:b" (some "c") "m" ≠ Action.emitRoom "a:b:c" (some "me") "m" := by
  decide

/-- Claim C2. The claim states that a matching response arriving before the
deadline invokes the sender's callback regardless of what other listeners
the sender has registered. The code refutes it: `handlePMessage` returns
early when `this.listeners('message').length === 0` BEFORE looking at the
message type, so a client with a pending send but no `message` listener
(here `stC2`, which does have a `broadcast` listener) silently drops the
response: no callback invocation, no timer cancellation, and the entry
stays pending. -/
theorem c2_response_dropped_without_message_listener :
    handlePMessage stC2 (messagePattern stC2) "n:a:b:1:r" "ok" = .ok (stC2, []) ∧
    List.lookup "1" stC2._messagesWaiting = some ⟨9, 100⟩ := by
  decide

/-- Claim C3. The claim states that on timeout the callback fires exactly
once with a timeout error and the correlation entry is removed so the
callback can never fire again. The code refutes it: the `setTimeout`
closure runs with `this` bound to the Timeout object, so
`delete this._messagesWaiting[msgId]` throws a TypeError (the timeout
error callback is never reached and the entry survives), after which a
late response for the same id still resolves the entry and invokes the
callback. -/
theorem c3_timeout_raises_and_entry_survives :
    sendMessage stC3 "b" "hi" (some 9) 100 =
      (stC3', [Action.startTimer 100, Action.publish "n:b:a:1" "hi"]) ∧
    messageTimeoutFire stC3' 9 1 =
      .error (.typeError "Cannot convert undefined or null to object") ∧
    List.lookup "1" stC3'._messagesWaiting = some ⟨9, 100⟩ ∧
    handlePMessage stC3' (messagePattern stC3') "n:a:b:1:r" "late" =
      .ok ({ stC3' with _messagesWaiting := [] },
           [Action.clearTimer 100, Action.invoke 9 none (some "b") (some "late")]) := by
  decide

/-- Claim C4. The claim states that a response whose correlation id has no
pending entry is dropped silently. The code refutes it: the response branch
reads `this._messagesWaiting[msgId].timeout` without checking that the
entry exists, so an unknown id (here `7`, never registered) raises a
TypeError instead of being dropped. -/
theorem c4_unknown_correlation_response_raises :
    handlePMessage stC4 (messagePattern stC4) "n:a:b:7:r" "x" =
      .error (.typeError "Cannot read property timeout of undefined") := by
  decide

/-- Claim C5. `close()` empties `_messagesWaiting` (so no correlation id is
resolvable afterwards), and its action trace is exactly: punsubscribe,
quit, then per pending entry (in table order) a `clearTimeout` of its
deadline timer followed by one invocation of its callback with the closed
error and no payload — so each pending callback is invoked exactly once
(the countP equalities) and every deadline timer is cleared. Afterwards no
dispatch on the closed state can invoke a correlation callback. `close` is
a total function of the state: the synchronous call completes without
raising. -/
theorem c5_close_drains_pending_sends (st : ClientState) :
    (close st).1._messagesWaiting = [] ∧
    (∀ k, List.lookup k (close st).1._messagesWaiting = none) ∧
    (close st).2 = Action.punsubscribe (messagePattern st) :: Action.quitOutgoing ::
      (st._messagesWaiting.map (fun p =>
        [Action.clearTimer p.2.timeout,
         Action.invoke p.2.callback (some closedErrMsg) none none])).flatten ∧
    (∀ cb, ((close st).2.countP
        (fun a => a == Action.invoke cb (some closedErrMsg) none none)) =
      st._messagesWaiting.countP (fun p => p.2.callback == cb)) ∧
    (∀ t, ((close st).2.countP (fun a => a == Action.clearTimer t)) =
      st._messagesWaiting.countP (fun p => p.2.timeout == t)) ∧
    (∀ p c m, invokeActions (handlePMessage (close st).1 p c m) = []) := by
  refine ⟨rfl, fun k => rfl, ?_, ?_, ?_, ?_⟩
  · simp [close, closeActions_eq_flatten]
  · intro cb
    simp [close, List.countP_cons, closeActions_countP_invoke]
  · intro t
    simp [close, List.countP_cons, closeActions_countP_clear]
  · intro p c m
    exact invokeActions_of_no_waiting _ rfl p c m

/-- Claim C6. The claim states that a well-formed broadcast with a listener
registered emits `(broadcastType, sender, payload)` with `sender` the
decoded sending client's identity. The code refutes the sender part: the
emit uses the var-hoisted `sender` variable, which is still `undefined` in
the broadcast branch (the decoded `bsender` is computed but never used),
so the event carries `undefined` (modelled `none`) rather than `b`. The
zero-listener drop happens, as claimed, before any decoding. -/
theorem c6_broadcast_sender_undefined :
    handlePMessage stC6 (broadcastPattern stC6) "n::chat::b" "hello" =
      .ok (stC6, [Action.emitBroadcast "chat" none "hello"]) ∧
    handlePMessage stC6 (broadcastPattern stC6) "n::chat::b" "hello" ≠
      .ok (stC6, [Action.emitBroadcast "chat" (some "b") "hello"]) := by
  decide

/-- Claim C7. The claim states that a room-pattern notification whose
channel has fewer fields than the room shape requires is dropped silently
without raising. The code refutes it: the room branch performs no length
check at all — on the two-field channel `n:room` it evaluates
`rparts[2].replace(...)` with `rparts[2]` undefined and raises a
TypeError, and on the four-field channel `n:room:lobby:x` (below the
five-field room shape) it emits an event instead of dropping. -/
theorem c7_room_malformed_channel_raises :
    handlePMessage stC7 "n:room:lobby:*" "n:room" "x" =
      .error (.typeError "Cannot read property of undefined") ∧
    handlePMessage stC7 "n:room:lobby:*" "n:room:lobby:x" "m" =
      .ok (stC7, [Action.emitRoom "lobby" (some "x") "m"]) := by
  decide

/-- Claim C8. The claim states that after `ignoreRoom('lobby')` no further
room message for `lobby` is delivered to a handler registered with
`listenToRoom('lobby', h)`. The code refutes it: `ignoreRoom` compares
`typeof callback === 'Function'` (never true, `typeof` yields lowercase
`'function'`) and then calls `removeAllListeners(room)` with the bare room
name, while `listenToRoom` registered the handler under `'room:' + room` —
so handler 7 is still registered after `ignoreRoom` (with or without the
callback argument), and a subsequent room message is still emitted and
delivered to it. -/
theorem c8_ignoreRoom_leaves_handler_registered :
    listenersFor stC8b "room:lobby" = [7] ∧
    handlePMessage stC8b "n:room:lobby:*" "n:room:lobby:x:1" "hi" =
      .ok (stC8b, [Action.emitRoom "lobby" (some "x") "hi"]) ∧
    deliveredHandlers stC8b (Action.emitRoom "lobby" (some "x") "hi") = [7] ∧
    listenersFor (ignoreRoom stC8a "lobby" (some 7)).1 "room:lobby" = [7] := by
  decide

/-- Claim C9. The claim states that error suppression defaults to true and
that explicitly setting the option to false makes transport errors
propagate. The code refutes the second part:
`opts.suppressRedisError || true` evaluates to `true` for every possible
option value — in particular for an explicit `false` — so the log-and
swallow handlers are always installed and suppression can never be
disabled. -/
theorem c9_redis_error_suppression_cannot_be_disabled :
    supressRedisError (some false) = true ∧
    redisErrorsSwallowed (some false) = true ∧
    ∀ v, supressRedisError v = true := by
  decide

/-- Claim C10. A client receives its own room messages: dispatching the
channel a client itself published with `sendRoomMessage` against the
pattern it subscribed with `listenToRoom` emits the room event with the
client's own identity as sender and the original payload, and the event is
delivered to the client's own registered handler — the dispatcher applies
no sender-is-self filter. (Hypotheses: namespace, client id, room name and
the rendered message id are free of the `':'` delimiter and the room name
does not contain the escape placeholder, so that escaping is the
identity.) -/
theorem c10_room_self_delivery (st : ClientState) (room msg : String) (hnd : Nat)
    (hns : ∀ x ∈ st._namespace.data, x ≠ ':')
    (hcid : ∀ x ∈ st._clientId.data, x ≠ ':')
    (hroom : ∀ x ∈ room.data, x ≠ ':')
    (hsc : containsSub "??SC??".data room.data = false)
    (hmid : ∀ x ∈ (toString (st._messageId + 1)).data, x ≠ ':')
    (hmem : ("room:" ++ room, hnd) ∈ st.listeners) :
    handlePMessage st (listenRoomPattern st room) (sendRoomChannel st room) msg =
      .ok (st, [Action.emitRoom room (some st._clientId) msg]) ∧
    hnd ∈ deliveredHandlers st (Action.emitRoom room (some st._clientId) msg) := by
  have hroomc : jsReplaceFirst room ":" "??SC??" = room := by
    show String.mk (replFirst [':'] "??SC??".data room.data) = room
    rw [replFirst_single_id _ hroom, mk_data]
  have hdec : jsReplaceFirst room "??SC??" ":" = room := by
    show String.mk (replFirst "??SC??".data ":".data room.data) = room
    rw [replFirst_id _ hsc, mk_data]
  have hne : listenRoomPattern st room ≠ broadcastPattern st := by
    intro heq
    have hlen := congrArg String.length heq
    simp only [listenRoomPattern, broadcastPattern, String.length_append,
      show (":room:" : String).length = 6 from rfl,
      show (":*" : String).length = 2 from rfl,
      show ("::*" : String).length = 3 from rfl] at hlen
    omega
  have hsw : jsStartsWith (listenRoomPattern st room) (st._namespace ++ ":room:") = true := by
    show ((st._namespace ++ ":room:").data).isPrefixOf (listenRoomPattern st room).data = true
    rw [listenRoomPattern, hroomc]
    rw [show st._namespace ++ ":room:" ++ room ++ ":*" =
      (st._namespace ++ ":room:") ++ (room ++ ":*") by simp [String.append_assoc]]
    rw [data_append]
    exact isPrefixOf_append_self _ _
  have hdata : (sendRoomChannel st room).data =
      st._namespace.data ++ ':' :: (['r', 'o', 'o', 'm'] ++ ':' ::
        (room.data ++ ':' :: (st._clientId.data ++ ':' ::
          (toString (st._messageId + 1)).data))) := by
    simp only [sendRoomChannel, hroomc, data_append]
    simp [List.append_assoc]
  have hsplit : jsSplitColon (sendRoomChannel st room) =
      [st._namespace, "room", room, st._clientId, toString (st._messageId + 1)] := by
    show (splitSC (sendRoomChannel st room).data []).map String.mk = _
    rw [hdata, splitSC_concat5 _ _ _ _ _ hns (by decide) hroom hcid hmid]
    simp [mk_data]
  constructor
  · unfold handlePMessage
    rw [if_neg hne, if_pos hsw, hsplit]
    simp [hdec]
  · simp only [deliveredHandlers, listenersFor, List.mem_map]
    refine ⟨("room:" ++ room, hnd), ?_, rfl⟩
    simp only [List.mem_filter]
    exact ⟨hmem, by simp⟩

/-- Witness for C10: client `c` in namespace `n` listening to room `lobby`
with handler `7` receives its own room message `hello` on its own handler. -/
theorem c10_room_self_delivery_witness :
    handlePMessage st10w (listenRoomPattern st10w "lobby") (sendRoomChannel st10w "lobby") "hello" =
      .ok (st10w, [Action.emitRoom "lobby" (some "c") "hello"]) ∧
    7 ∈ deliveredHandlers st10w (Action.emitRoom "lobby" (some "c") "hello") :=
  c10_room_self_delivery st10w "lobby" "hello" 7 (by decide) (by decide) (by decide)
    (by decide) (by decide) (by decide)

end Remus
